import Mathlib

/-!
Shallow embedding of the client-side controller in `src/dashboard.js`
(class `HealthDashboard`), together with proofs of the behavioural
properties claimed for it.

Modelling conventions:
* All DOM elements referenced by id exist (they all appear in
  `src/index.html`), so the `if (element)` guards are taken in their
  positive branch.
* JS numbers are modelled as `ℚ`; display strings whose exact formatting
  is environment-dependent (`toLocaleTimeString`, number formatting) are
  modelled by the underlying value (`Option ℚ`, `none` rendering as the
  placeholder `--`).
* A thrown JS exception is modelled as `Except.error`; the `try/catch`
  in `updateHealthData` is modelled explicitly.
-/

/-- One backend health snapshot (`data.health_data`).  The chart label
derived from `timestamp` is modelled by the timestamp itself. -/
structure HealthData where
  timestamp : Nat
  heart_rate : ℚ
  blood_oxygen : ℚ
  temperature : ℚ
  activity_level : ℚ
  sleep_quality : ℚ
  stress_level : ℚ
  health_score : ℚ
  deriving DecidableEq

/-- Backend anomaly verdict (`data.anomaly_result`).  `risk_level` is kept
as a string exactly as the code compares it (`=== 'High'`, `=== 'Medium'`). -/
structure AnomalyResult where
  status : String
  is_anomaly : Bool
  risk_level : String
  deriving DecidableEq

/-- Backend recommendation bundle (`data.recommendations`). -/
structure RecommendationSet where
  priority : String
  recommendations : List String
  deriving DecidableEq

/-- Inner model-metrics object (`data.metrics.metrics`). -/
structure ModelMetrics where
  accuracy : ℚ
  total_samples : Nat
  detected_anomalies : Nat
  deriving DecidableEq

/-- Composite snapshot returned by `GET /api/health-data`.  `metrics` is the
inner `metrics.metrics` object, `none` when absent (the code guards
`if (!metrics.metrics) return`). -/
structure Snapshot where
  health_data : Option HealthData
  anomaly_result : AnomalyResult
  recommendations : RecommendationSet
  metrics : Option ModelMetrics
  deriving DecidableEq

/-- `this.chart.data`: the label list and the four dataset arrays
(Heart Rate, Blood Oxygen, Temperature, Health Score). -/
structure ChartData where
  labels : List Nat
  heartRateData : List ℚ
  bloodOxygenData : List ℚ
  temperatureData : List ℚ
  healthScoreData : List ℚ
  deriving DecidableEq

/-- `const maxPoints = 20` in `updateChart`. -/
def maxPoints : Nat := 20

def emptyChart : ChartData := ⟨[], [], [], [], []⟩

/-- The body of `updateChart` once `this.chart` and `healthData` are
non-null: push the new point onto the labels and every dataset, then if
the labels exceed `maxPoints`, shift (drop the head of) the labels and
every dataset. -/
def appendChartPoint (h : HealthData) (c : ChartData) : ChartData :=
  let labels := c.labels ++ [h.timestamp]
  let d0 := c.heartRateData ++ [h.heart_rate]
  let d1 := c.bloodOxygenData ++ [h.blood_oxygen]
  let d2 := c.temperatureData ++ [h.temperature]
  let d3 := c.healthScoreData ++ [h.health_score]
  if maxPoints < labels.length then
    ⟨labels.tail, d0.tail, d1.tail, d2.tail, d3.tail⟩
  else
    ⟨labels, d0, d1, d2, d3⟩

/-- The chart state after a sequence of successful appends starting from
the empty chart created by `initChart`. -/
def chartAfter (hs : List HealthData) : ChartData :=
  hs.foldl (fun c h => appendChartPoint h c) emptyChart

/-- The most recent `min (l.length) maxPoints` elements of `l`, in order:
the sliding-window specification of the buffer contents. -/
def window (l : List α) : List α := l.drop (l.length - maxPoints)

lemma window_length (l : List α) : (window l).length = min l.length maxPoints := by
  simp [window]
  omega

lemma window_of_short (l : List α) (h : l.length ≤ maxPoints) : window l = l := by
  simp [window, Nat.sub_eq_zero_of_le h]

lemma window_append_tail (l : List α) (x : α) (h : maxPoints ≤ l.length) :
    (window l ++ [x]).tail = window (l ++ [x]) := by
  unfold window
  rw [show l.drop (l.length - maxPoints) ++ [x]
        = (l ++ [x]).drop (l.length - maxPoints) from
      (List.drop_append_of_le_length (Nat.sub_le _ _)).symm,
    List.tail_drop]
  congr 1
  simp
  omega

lemma window_append_keep (l : List α) (x : α) (h : l.length < maxPoints) :
    window l ++ [x] = window (l ++ [x]) := by
  unfold window
  rw [Nat.sub_eq_zero_of_le (by omega), Nat.sub_eq_zero_of_le (by simp; omega)]
  simp

/-- One append step preserves the window characterisation, across the label
list and all four datasets (which all track lists of the same length `n`). -/
lemma appendChartPoint_window (h : HealthData) (A : List Nat) (B C D E : List ℚ)
    (hB : B.length = A.length) (hC : C.length = A.length)
    (hD : D.length = A.length) (hE : E.length = A.length) :
    appendChartPoint h ⟨window A, window B, window C, window D, window E⟩ =
      ⟨window (A ++ [h.timestamp]), window (B ++ [h.heart_rate]),
       window (C ++ [h.blood_oxygen]), window (D ++ [h.temperature]),
       window (E ++ [h.health_score])⟩ := by
  unfold appendChartPoint
  dsimp only
  have hlen : (window A ++ [h.timestamp]).length = min A.length maxPoints + 1 := by
    simp [window_length]
  rcases lt_or_le A.length maxPoints with hs | hs
  · rw [if_neg (by rw [hlen]; omega)]
    simp only [ChartData.mk.injEq]
    exact ⟨window_append_keep A _ hs, window_append_keep B _ (by omega),
      window_append_keep C _ (by omega), window_append_keep D _ (by omega),
      window_append_keep E _ (by omega)⟩
  · rw [if_pos (by rw [hlen]; omega)]
    simp only [ChartData.mk.injEq]
    exact ⟨window_append_tail A _ hs, window_append_tail B _ (by omega),
      window_append_tail C _ (by omega), window_append_tail D _ (by omega),
      window_append_tail E _ (by omega)⟩

lemma chartAfter_eq (hs : List HealthData) :
    chartAfter hs =
      ⟨window (hs.map HealthData.timestamp), window (hs.map HealthData.heart_rate),
       window (hs.map HealthData.blood_oxygen), window (hs.map HealthData.temperature),
       window (hs.map HealthData.health_score)⟩ := by
  induction hs using List.reverseRecOn with
  | nil => rfl
  | append_singleton l x ih =>
      unfold chartAfter at ih ⊢
      rw [List.foldl_append, List.foldl_cons, List.foldl_nil, ih]
      simp only [List.map_append, List.map_cons, List.map_nil]
      exact appendChartPoint_window x _ _ _ _ _
        (by simp) (by simp) (by simp) (by simp)

/-- C1: for every sequence of successful snapshot appends, the chart buffer
(labels and each of the four datasets) has length `min n maxPoints ≤ 20`
and contains exactly the most recent `min n 20` points in arrival order
(strict FIFO eviction).  Since this holds for every sequence, it holds
after every individual append. -/
theorem chart_buffer_fifo (hs : List HealthData) :
    (chartAfter hs).labels.length = min hs.length maxPoints ∧
    (chartAfter hs).labels.length ≤ maxPoints ∧
    (chartAfter hs).labels = window (hs.map HealthData.timestamp) ∧
    (chartAfter hs).heartRateData = window (hs.map HealthData.heart_rate) ∧
    (chartAfter hs).bloodOxygenData = window (hs.map HealthData.blood_oxygen) ∧
    (chartAfter hs).temperatureData = window (hs.map HealthData.temperature) ∧
    (chartAfter hs).healthScoreData = window (hs.map HealthData.health_score) := by
  have h := chartAfter_eq hs
  rw [h]
  refine ⟨?_, ?_, rfl, rfl, rfl, rfl, rfl⟩
  · rw [window_length, List.length_map]
  · rw [window_length, List.length_map]
    omega

/-- Visual band classes added to the score progress bar
(`bg-success` / `bg-warning` / `bg-danger`). -/
inductive Band where
  | success
  | warning
  | danger
  deriving DecidableEq

/-- The status indicator icon markup set by `updateHealthStatus`:
`text-secondary` (waiting), `text-danger emergency` (anomaly),
`text-success normal` (normal). -/
inductive Indicator where
  | secondary
  | dangerEmergency
  | successNormal
  deriving DecidableEq

/-- The six metric tiles; `none` renders the placeholder text. -/
structure Tiles where
  heartRate : Option ℚ
  bloodOxygen : Option ℚ
  temperature : Option ℚ
  activityLevel : Option ℚ
  sleepQuality : Option ℚ
  stressLevel : Option ℚ
  deriving DecidableEq

/-- The recommendations panel: either rendered items (priority class paired
with each text) or the default neutral placeholder for an empty list. -/
inductive RecView where
  | items (l : List (String × String))
  | placeholder
  deriving DecidableEq

/-- One call to `showAlert(type, message)`, recorded as an emitted effect. -/
structure AlertCall where
  severity : String
  message : String
  deriving DecidableEq

/-- The state owned by the `HealthDashboard` class instance together with
the DOM state it manipulates.  All elements exist (see `src/index.html`). -/
structure HealthDashboard where
  isUpdating : Bool
  emergencyMode : Bool
  timerRunning : Bool
  loadingShown : Bool
  chart : Option ChartData
  tiles : Tiles
  statusText : String
  indicator : Indicator
  scoreText : Option ℚ
  scoreBarWidth : ℚ
  scoreBarBand : Option Band
  recView : RecView
  modelView : Option ModelMetrics
  connected : Bool
  fingerprintVisible : Bool
  stopVisible : Bool
  normalBtnEnabled : Bool
  emergencyBtnEnabled : Bool
  stopBtnEnabled : Bool
  retrainBtnEnabled : Bool
  deriving DecidableEq

/-- State right after `init()` ran `initChart` on the page of
`src/index.html` (fingerprint section shown, stop button hidden, all
buttons enabled), before the first fetch resolves. -/
def initDashboard : HealthDashboard where
  isUpdating := false
  emergencyMode := false
  timerRunning := true
  loadingShown := false
  chart := some emptyChart
  tiles := ⟨none, none, none, none, none, none⟩
  statusText := "Loading..."
  indicator := .secondary
  scoreText := none
  scoreBarWidth := 0
  scoreBarBand := none
  recView := .placeholder
  modelView := none
  connected := true
  fingerprintVisible := true
  stopVisible := false
  normalBtnEnabled := true
  emergencyBtnEnabled := true
  stopBtnEnabled := true
  retrainBtnEnabled := true

/-- `updateMetrics(healthData)`: with no health data every tile shows the
placeholder; otherwise each tile shows its snapshot value. -/
def updateMetrics (hd : Option HealthData) (s : HealthDashboard) : HealthDashboard :=
  match hd with
  | none => { s with tiles := ⟨none, none, none, none, none, none⟩ }
  | some h =>
      { s with tiles := ⟨some h.heart_rate, some h.blood_oxygen, some h.temperature,
                         some h.activity_level, some h.sleep_quality, some h.stress_level⟩ }

/-- The sentinel status string the code compares against. -/
def waitingStatus : String := "Waiting for fingerprint scan..."

/-- The progress-bar band chosen in `updateHealthStatus`:
`healthScore >= 80` success, else `>= 60` warning, else danger. -/
def healthBand (score : ℚ) : Band :=
  if 80 ≤ score then .success else if 60 ≤ score then .warning else .danger

/-- `updateHealthStatus(anomalyResult, healthData)` with the status,
indicator, score and score-bar elements present.  Returns the new state and
the list of `showAlert` calls it makes. -/
def updateHealthStatus (ar : AnomalyResult) (hd : Option HealthData)
    (s : HealthDashboard) : HealthDashboard × List AlertCall :=
  if ar.status = waitingStatus then
    ({ s with statusText := "Waiting for scan...", indicator := .secondary }, [])
  else
    let s1 :=
      if ar.is_anomaly then
        { s with statusText := "Anomaly Detected (" ++ ar.risk_level ++ " Risk)",
                 indicator := .dangerEmergency, emergencyMode := true }
      else
        { s with statusText := "Normal", indicator := .successNormal,
                 emergencyMode := false }
    let alerts : List AlertCall :=
      if ar.is_anomaly then
        if ar.risk_level = "High" then
          [⟨"danger", "High risk health anomaly detected! Please monitor your symptoms closely."⟩]
        else if ar.risk_level = "Medium" then
          [⟨"warning", "Moderate health anomaly detected. Keep an eye on your metrics."⟩]
        else []
      else []
    let s2 :=
      match hd with
      | none => { s1 with scoreText := none, scoreBarWidth := 0, scoreBarBand := none }
      | some h => { s1 with scoreText := some h.health_score,
                            scoreBarWidth := h.health_score,
                            scoreBarBand := some (healthBand h.health_score) }
    (s2, alerts)

/-- `updateRecommendations(recommendations)`: render each item with the
priority class; an empty list renders the default placeholder message. -/
def updateRecommendations (r : RecommendationSet) (s : HealthDashboard) : HealthDashboard :=
  { s with recView :=
      if r.recommendations.isEmpty then .placeholder
      else .items (r.recommendations.map fun t => (r.priority.toLower, t)) }

/-- `updateModelMetrics(metrics)`: returns early when `metrics.metrics` is
absent, otherwise displays the three values. -/
def updateModelMetrics (m : Option ModelMetrics) (s : HealthDashboard) : HealthDashboard :=
  match m with
  | none => s
  | some mm => { s with modelView := some mm }

/-- `updateChart(healthData)`: returns early when `this.chart` is null;
otherwise reads `healthData.timestamp`, which throws a `TypeError` when
`healthData` is null, then pushes the point and shifts past capacity. -/
def updateChart (hd : Option HealthData) (s : HealthDashboard) :
    Except String HealthDashboard :=
  match s.chart with
  | none => .ok s
  | some c =>
      match hd with
      | none => .error "Cannot read properties of null"
      | some h => .ok { s with chart := some (appendChartPoint h c) }

def updateConnectionStatus (connected : Bool) (s : HealthDashboard) : HealthDashboard :=
  { s with connected := connected }

def showLoading (b : Bool) (s : HealthDashboard) : HealthDashboard :=
  { s with loadingShown := b }

/-- Outcome of the awaited `fetch('/api/health-data')` together with its
JSON body: success, a non-2xx response (`!response.ok` throws), or a
network error rejecting the promise. -/
inductive FetchResult where
  | ok (snap : Snapshot)
  | httpError (status : Nat)
  | netError (message : String)
  deriving DecidableEq

/-- The synchronous prefix of `updateHealthData()` up to the suspension at
`await fetch`: the re-entrancy guard, setting `isUpdating`, and
`showLoading(true)`.  The boolean reports whether a fetch was issued. -/
def updateHealthDataStart (s : HealthDashboard) : HealthDashboard × Bool :=
  if s.isUpdating then (s, false)
  else ({ s with isUpdating := true, loadingShown := true }, true)

/-- The body of the `try` block of `updateHealthData` after the response
arrived: runs the five UI updaters in order.  The third component is the
exception thrown by `updateChart`, if any; when it is thrown, the updates
already made before it stand. -/
def applySnapshot (snap : Snapshot) (s : HealthDashboard) :
    HealthDashboard × List AlertCall × Option String :=
  let s1 := updateMetrics snap.health_data s
  let (s2, alerts) := updateHealthStatus snap.anomaly_result snap.health_data s1
  let s3 := updateRecommendations snap.recommendations s2
  let s4 := updateModelMetrics snap.metrics s3
  match updateChart snap.health_data s4 with
  | .error e => (s4, alerts, some e)
  | .ok s5 => (updateConnectionStatus true s5, alerts, none)

/-- Completion of one `updateHealthData()` run that issued a fetch: the
rest of the `try` block on success, the `catch` block (error alert and
disconnected indicator) on any thrown error, and the `finally` block
(loading hidden, `isUpdating` cleared) in all cases.  Returns the new
state and the `showAlert` calls made. -/
def updateHealthDataFinish (r : FetchResult) (s : HealthDashboard) :
    HealthDashboard × List AlertCall :=
  let step : HealthDashboard × List AlertCall :=
    match r with
    | .ok snap =>
        match applySnapshot snap s with
        | (s2, alerts, none) => (s2, alerts)
        | (s2, alerts, some e) =>
            (updateConnectionStatus false s2,
             alerts ++ [⟨"error", "Failed to update health data: " ++ e⟩])
    | .httpError code =>
        (updateConnectionStatus false s,
         [⟨"error", "Failed to update health data: HTTP error! status: "
             ++ toString code⟩])
    | .netError m =>
        (updateConnectionStatus false s,
         [⟨"error", "Failed to update health data: " ++ m⟩])
  ({ step.1 with loadingShown := false, isUpdating := false }, step.2)

/-- `r` is a failed fetch: a network error or a non-success HTTP status. -/
def fetchFailed : FetchResult → Bool
  | .ok _ => false
  | .httpError _ => true
  | .netError _ => true

/-- Operations performed synchronously by the polling-lifecycle handlers;
`fetchIssued` stands for a call to `updateHealthData`. -/
inductive LoopAction where
  | fetchIssued
  | timerCleared
  | timerStarted
  deriving DecidableEq

/-- `startDataUpdates()`: clear any existing interval, install a new
5000 ms interval whose callback is `updateHealthData`, and mark the
connection as up.  The body contains no direct `updateHealthData` call, so
no fetch is issued here. -/
def startDataUpdates (s : HealthDashboard) : HealthDashboard × List LoopAction :=
  ({ s with timerRunning := true, connected := true },
   (if s.timerRunning then [LoopAction.timerCleared] else []) ++ [LoopAction.timerStarted])

/-- `stopDataUpdates()`: clear the interval if present and mark the
connection as down. -/
def stopDataUpdates (s : HealthDashboard) : HealthDashboard × List LoopAction :=
  if s.timerRunning then
    ({ s with timerRunning := false, connected := false }, [LoopAction.timerCleared])
  else
    ({ s with connected := false }, [])

/-- The `visibilitychange` listener installed by `setupEventListeners`:
hidden pages stop the updates, visible pages restart them. -/
def visibilityChangeHandler (hidden : Bool) (s : HealthDashboard) :
    HealthDashboard × List LoopAction :=
  if hidden then stopDataUpdates s else startDataUpdates s

/-- One firing of the interval installed by `startDataUpdates`: the
callback simply calls `updateHealthData`, whose synchronous prefix is
`updateHealthDataStart`. -/
def scheduledTick (s : HealthDashboard) : HealthDashboard × Bool :=
  updateHealthDataStart s

/-- Outcome of an awaited session-transition request
(`/api/normal-scan`, `/api/fingerprint-scan`, `/api/reset-emergency`). -/
inductive ReqResult where
  | ok (message : String)
  | httpError (status : Nat)
  | netError (message : String)
  deriving DecidableEq

def reqFailed : ReqResult → Bool
  | .ok _ => false
  | .httpError _ => true
  | .netError _ => true

/-- `triggerNormalScan()` from button press to settled promise: the button
is disabled for the duration; on success a success alert is shown, the
fingerprint section hidden and the stop button shown; on failure a danger
alert is shown and nothing else changes; `finally` re-enables the button. -/
def triggerNormalScan (r : ReqResult) (s : HealthDashboard) :
    HealthDashboard × List AlertCall :=
  match r with
  | .ok msg =>
      ({ s with fingerprintVisible := false, stopVisible := true,
                normalBtnEnabled := true },
       [⟨"success", msg⟩])
  | .httpError code =>
      ({ s with normalBtnEnabled := true },
       [⟨"danger", "Failed to start normal monitoring: HTTP error! status: "
           ++ toString code⟩])
  | .netError m =>
      ({ s with normalBtnEnabled := true },
       [⟨"danger", "Failed to start normal monitoring: " ++ m⟩])

/-- `triggerEmergencyScan()`: same protocol as the normal scan, except the
success alert uses the danger severity. -/
def triggerEmergencyScan (r : ReqResult) (s : HealthDashboard) :
    HealthDashboard × List AlertCall :=
  match r with
  | .ok msg =>
      ({ s with fingerprintVisible := false, stopVisible := true,
                emergencyBtnEnabled := true },
       [⟨"danger", msg⟩])
  | .httpError code =>
      ({ s with emergencyBtnEnabled := true },
       [⟨"danger", "Failed to start emergency monitoring: HTTP error! status: "
           ++ toString code⟩])
  | .netError m =>
      ({ s with emergencyBtnEnabled := true },
       [⟨"danger", "Failed to start emergency monitoring: " ++ m⟩])

/-- `stopMonitoring()`: on success an info alert is shown, the fingerprint
section restored and the stop button hidden; on failure a danger alert is
shown and nothing else changes; `finally` re-enables the button. -/
def stopMonitoring (r : ReqResult) (s : HealthDashboard) :
    HealthDashboard × List AlertCall :=
  match r with
  | .ok msg =>
      ({ s with fingerprintVisible := true, stopVisible := false,
                stopBtnEnabled := true },
       [⟨"info", msg⟩])
  | .httpError code =>
      ({ s with stopBtnEnabled := true },
       [⟨"danger", "Failed to stop monitoring: HTTP error! status: "
           ++ toString code⟩])
  | .netError m =>
      ({ s with stopBtnEnabled := true },
       [⟨"danger", "Failed to stop monitoring: " ++ m⟩])

/-- The alert area (`alertSection` / `healthAlert` / `alertMessage`)
together with the set of pending `setTimeout` auto-hide callbacks,
identified by their firing times. -/
structure AlertSlot where
  visible : Bool
  severity : String
  message : String
  timers : List Nat
  deriving DecidableEq

/-- `alertSection` starts hidden (`style="display: none"`). -/
def initialAlertSlot : AlertSlot := ⟨false, "", "", []⟩

/-- Auto-dismiss duration of `showAlert`: 5000 ms. -/
def alertDismissMs : Nat := 5000

/-- `showAlert(type, message)` at wall-clock time `now`: overwrite the
severity class and message, show the section, and schedule one more
auto-hide timeout for `now + 5000`.  No previously scheduled timeout is
cancelled. -/
def showAlert (now : Nat) (sev msg : String) (a : AlertSlot) : AlertSlot :=
  { visible := true, severity := sev, message := msg,
    timers := a.timers ++ [now + alertDismissMs] }

/-- Run the event loop up to time `t`: every pending auto-hide timeout
whose firing time has been reached fires, and each firing hides the alert
section unconditionally. -/
def fireDue (t : Nat) (a : AlertSlot) : AlertSlot :=
  if a.timers.any fun u => decide (u ≤ t) then
    { a with visible := false, timers := a.timers.filter fun u => decide (t < u) }
  else a

/-- Execute a time-ordered list of `showAlert` calls `(time, type,
message)`, firing due timeouts before each call. -/
def runAlerts (evs : List (Nat × String × String)) (a : AlertSlot) : AlertSlot :=
  match evs with
  | [] => a
  | (t, sev, msg) :: rest => runAlerts rest (showAlert t sev msg (fireDue t a))

/-- The alert slot observed at time `t` after a time-ordered list of
`showAlert` calls, starting from the hidden initial slot. -/
def alertSlotAt (evs : List (Nat × String × String)) (t : Nat) : AlertSlot :=
  fireDue t (runAlerts evs initialAlertSlot)

/-- C2: whenever a fetch is pending (`isUpdating`), a scheduled tick or
manual trigger of `updateHealthData` returns immediately with the state
unchanged and no fetch issued; and after every completion, successful or
failed, the in-flight flag is cleared by the `finally` block. -/
theorem fetch_at_most_one_in_flight (s t : HealthDashboard) (r : FetchResult)
    (h : s.isUpdating = true) :
    updateHealthDataStart s = (s, false) ∧
    (updateHealthDataFinish r t).1.isUpdating = false := by
  constructor
  · simp [updateHealthDataStart, h]
  · rfl

/-- Witness for `fetch_at_most_one_in_flight` at a concrete pending state
and a concrete failed completion. -/
theorem fetch_at_most_one_in_flight_witness :
    updateHealthDataStart { initDashboard with isUpdating := true }
      = ({ initDashboard with isUpdating := true }, false) ∧
    (updateHealthDataFinish (.httpError 500) initDashboard).1.isUpdating = false :=
  fetch_at_most_one_in_flight { initDashboard with isUpdating := true }
    initDashboard (.httpError 500) rfl

/-- A concrete composite snapshot in the waiting/sentinel state:
`health_data` is null and the anomaly status is the waiting sentinel. -/
def waitingSnapshot : Snapshot :=
  ⟨none, ⟨waitingStatus, false, ""⟩, ⟨"Low", []⟩, none⟩

/-- C3: processing a snapshot with `health_data: null` does render the
metric tiles as placeholders and the status indicator as neutral, and
appends no chart point; but it does not exit without error: `updateChart`
dereferences `healthData.timestamp` on null and throws, so the `catch`
block surfaces an error alert and marks the connection as disconnected. -/
theorem waiting_snapshot_throws_in_updateChart :
    (updateHealthDataFinish (.ok waitingSnapshot)
        { initDashboard with isUpdating := true, loadingShown := true }).1.tiles
      = ⟨none, none, none, none, none, none⟩ ∧
    (updateHealthDataFinish (.ok waitingSnapshot)
        { initDashboard with isUpdating := true, loadingShown := true }).1.statusText
      = "Waiting for scan..." ∧
    (updateHealthDataFinish (.ok waitingSnapshot)
        { initDashboard with isUpdating := true, loadingShown := true }).1.indicator
      = Indicator.secondary ∧
    (updateHealthDataFinish (.ok waitingSnapshot)
        { initDashboard with isUpdating := true, loadingShown := true }).1.chart
      = some emptyChart ∧
    (updateHealthDataFinish (.ok waitingSnapshot)
        { initDashboard with isUpdating := true, loadingShown := true }).2.map
        AlertCall.severity = ["error"] ∧
    (updateHealthDataFinish (.ok waitingSnapshot)
        { initDashboard with isUpdating := true, loadingShown := true }).1.connected
      = false :=
  ⟨rfl, rfl, rfl, rfl, rfl, rfl⟩

/-- C4 counterexample: an alert raised at t=0 schedules an auto-hide at
t=5000; a second alert raised at t=3000 replaces the message and severity
but does not cancel the first timeout, so at t=5000 — well before
3000 + 5000 — the replacing alert is already hidden, contradicting the
claim that it stays visible for the full 5000 ms. -/
theorem alert_timer_not_reset_cex :
    (alertSlotAt [(0, "danger", "A"), (3000, "warning", "B")] 5000).message = "B" ∧
    (alertSlotAt [(0, "danger", "A"), (3000, "warning", "B")] 5000).severity = "warning" ∧
    (alertSlotAt [(0, "danger", "A"), (3000, "warning", "B")] 5000).visible = false ∧
    5000 < 3000 + alertDismissMs :=
  ⟨rfl, rfl, rfl, by norm_num [alertDismissMs]⟩

/-- C4 (amended): raising an alert while one is displayed replaces the
displayed message and severity (single slot) and schedules one additional
5000 ms auto-hide timeout without cancelling the previous ones, so the
alert is hidden as soon as the earliest outstanding timeout fires. -/
theorem alert_replace_and_earliest_timeout (a : AlertSlot) (now t q : Nat)
    (sev msg : String) (ht : t ∈ (showAlert now sev msg a).timers) (hq : t ≤ q) :
    (showAlert now sev msg a).severity = sev ∧
    (showAlert now sev msg a).message = msg ∧
    (showAlert now sev msg a).visible = true ∧
    (showAlert now sev msg a).timers = a.timers ++ [now + alertDismissMs] ∧
    (fireDue q (showAlert now sev msg a)).visible = false := by
  refine ⟨rfl, rfl, rfl, rfl, ?_⟩
  have hc : ((showAlert now sev msg a).timers.any fun u => decide (u ≤ q)) = true :=
    List.any_eq_true.mpr ⟨t, ht, by simpa using hq⟩
  simp [fireDue, hc]

/-- Witness for `alert_replace_and_earliest_timeout` at a concrete raise
and the firing time of its own timeout. -/
theorem alert_replace_and_earliest_timeout_witness :
    (showAlert 0 "danger" "x" initialAlertSlot).severity = "danger" ∧
    (showAlert 0 "danger" "x" initialAlertSlot).message = "x" ∧
    (showAlert 0 "danger" "x" initialAlertSlot).visible = true ∧
    (showAlert 0 "danger" "x" initialAlertSlot).timers
      = initialAlertSlot.timers ++ [0 + alertDismissMs] ∧
    (fireDue 6000 (showAlert 0 "danger" "x" initialAlertSlot)).visible = false :=
  alert_replace_and_earliest_timeout initialAlertSlot 0 5000 6000 "danger" "x"
    (by simp [showAlert, initialAlertSlot, alertDismissMs]) (by norm_num)

/-- C5 counterexample: after the page is hidden (pausing the loop) and
made visible again, the resume handler only restarts the interval timer;
it performs no `updateHealthData` call, so zero immediate fetches are
issued before the next scheduled tick, not exactly one. -/
theorem resume_no_immediate_fetch_cex :
    (visibilityChangeHandler true initDashboard).1.timerRunning = false ∧
    (visibilityChangeHandler false (visibilityChangeHandler true initDashboard).1).2
      = [LoopAction.timerStarted] ∧
    LoopAction.fetchIssued ∉
      (visibilityChangeHandler false (visibilityChangeHandler true initDashboard).1).2 := by
  refine ⟨rfl, rfl, ?_⟩
  decide

/-- C5 (amended): hiding the page pauses the polling loop; making it
visible again restarts the interval, but no immediate fetch is issued by
either handler — the first fetch after resume happens only at the next
scheduled tick (which does fetch when no update is pending). -/
theorem visibility_pause_resume (s : HealthDashboard) (h : s.isUpdating = false) :
    (visibilityChangeHandler true s).1.timerRunning = false ∧
    LoopAction.fetchIssued ∉ (visibilityChangeHandler true s).2 ∧
    (visibilityChangeHandler false s).1.timerRunning = true ∧
    LoopAction.fetchIssued ∉ (visibilityChangeHandler false s).2 ∧
    (scheduledTick (visibilityChangeHandler false s).1).2 = true := by
  by_cases ht : s.timerRunning <;>
    simp [visibilityChangeHandler, stopDataUpdates, startDataUpdates,
      scheduledTick, updateHealthDataStart, ht, h]

/-- Witness for `visibility_pause_resume` at the initial dashboard state. -/
theorem visibility_pause_resume_witness :
    (visibilityChangeHandler true initDashboard).1.timerRunning = false ∧
    LoopAction.fetchIssued ∉ (visibilityChangeHandler true initDashboard).2 ∧
    (visibilityChangeHandler false initDashboard).1.timerRunning = true ∧
    LoopAction.fetchIssued ∉ (visibilityChangeHandler false initDashboard).2 ∧
    (scheduledTick (visibilityChangeHandler false initDashboard).1).2 = true :=
  visibility_pause_resume initDashboard rfl

/-- C6: the health-score band is a pure function of the score with
half-open intervals — `[80, ∞)` success, `[60, 80)` warning, below 60
danger — with the boundary values 80, 79, 60, 59 mapping as claimed; and
`updateHealthStatus` colours the score bar with exactly this band. -/
theorem health_score_banding (q : ℚ) (ar : AnomalyResult) (h : HealthData)
    (s : HealthDashboard) (hns : ar.status ≠ waitingStatus) :
    (80 ≤ q → healthBand q = Band.success) ∧
    (60 ≤ q ∧ q < 80 → healthBand q = Band.warning) ∧
    (0 ≤ q ∧ q < 60 → healthBand q = Band.danger) ∧
    healthBand 80 = Band.success ∧ healthBand 79 = Band.warning ∧
    healthBand 60 = Band.warning ∧ healthBand 59 = Band.danger ∧
    (updateHealthStatus ar (some h) s).1.scoreBarBand
      = some (healthBand h.health_score) := by
  refine ⟨?_, ?_, ?_, by norm_num [healthBand], by norm_num [healthBand],
    by norm_num [healthBand], by norm_num [healthBand], ?_⟩
  · intro hq
    rw [healthBand, if_pos hq]
  · rintro ⟨h1, h2⟩
    rw [healthBand, if_neg (by linarith), if_pos h1]
  · rintro ⟨h1, h2⟩
    rw [healthBand, if_neg (by linarith), if_neg (by linarith)]
  · simp only [updateHealthStatus, if_neg hns]

/-- A concrete healthy snapshot used by witnesses. -/
def sampleHealthData : HealthData := ⟨1000, 72, 98, 986/10, 5, 7, 3, 85⟩

/-- Witness for `health_score_banding` at score 79 and a concrete
non-sentinel result. -/
theorem health_score_banding_witness :
    healthBand 79 = Band.warning ∧
    (updateHealthStatus ⟨"Normal", false, "Low"⟩ (some sampleHealthData)
        initDashboard).1.scoreBarBand = some (healthBand sampleHealthData.health_score) :=
  ⟨(health_score_banding 79 ⟨"Normal", false, "Low"⟩ sampleHealthData initDashboard
      (by decide)).2.2.2.2.1,
   (health_score_banding 79 ⟨"Normal", false, "Low"⟩ sampleHealthData initDashboard
      (by decide)).2.2.2.2.2.2.2⟩

/-- C7: for a non-sentinel anomaly result, a High-risk anomaly raises a
danger alert and sets the emergency flag, a Medium-risk anomaly raises a
warning alert, and a non-anomalous result clears the emergency flag (and
raises nothing). -/
theorem anomaly_alert_policy (ar : AnomalyResult) (hd : Option HealthData)
    (s : HealthDashboard) (hns : ar.status ≠ waitingStatus) :
    (ar.is_anomaly = true ∧ ar.risk_level = "High" →
       (updateHealthStatus ar hd s).2.map AlertCall.severity = ["danger"] ∧
       (updateHealthStatus ar hd s).1.emergencyMode = true) ∧
    (ar.is_anomaly = true ∧ ar.risk_level = "Medium" →
       (updateHealthStatus ar hd s).2.map AlertCall.severity = ["warning"] ∧
       (updateHealthStatus ar hd s).1.emergencyMode = true) ∧
    (ar.is_anomaly = false →
       (updateHealthStatus ar hd s).1.emergencyMode = false ∧
       (updateHealthStatus ar hd s).2 = []) := by
  refine ⟨?_, ?_, ?_⟩
  · rintro ⟨ha, hr⟩
    cases hd <;> simp [updateHealthStatus, hns, ha, hr]
  · rintro ⟨ha, hr⟩
    cases hd <;> simp [updateHealthStatus, hns, ha, hr]
  · intro ha
    cases hd <;> simp [updateHealthStatus, hns, ha]

/-- Witness for `anomaly_alert_policy` at a concrete High-risk anomaly. -/
theorem anomaly_alert_policy_witness :
    (updateHealthStatus ⟨"Anomaly", true, "High"⟩ none initDashboard).2.map
      AlertCall.severity = ["danger"] ∧
    (updateHealthStatus ⟨"Anomaly", true, "High"⟩ none initDashboard).1.emergencyMode
      = true :=
  (anomaly_alert_policy ⟨"Anomaly", true, "High"⟩ none initDashboard (by decide)).1
    ⟨rfl, rfl⟩

/-- C8: when a session-transition request fails, the state is exactly the
prior state with the triggering control re-enabled — the scan-selection
and stop controls keep their previous visibility — and a single
danger-severity alert is surfaced; and in every outcome the triggering
control ends up re-enabled. -/
theorem session_transition_error_policy (r r2 : ReqResult) (s : HealthDashboard)
    (hf : reqFailed r = true) :
    (triggerNormalScan r s).1 = { s with normalBtnEnabled := true } ∧
    (triggerNormalScan r s).2.map AlertCall.severity = ["danger"] ∧
    (triggerEmergencyScan r s).1 = { s with emergencyBtnEnabled := true } ∧
    (triggerEmergencyScan r s).2.map AlertCall.severity = ["danger"] ∧
    (stopMonitoring r s).1 = { s with stopBtnEnabled := true } ∧
    (stopMonitoring r s).2.map AlertCall.severity = ["danger"] ∧
    (triggerNormalScan r2 s).1.normalBtnEnabled = true ∧
    (triggerEmergencyScan r2 s).1.emergencyBtnEnabled = true ∧
    (stopMonitoring r2 s).1.stopBtnEnabled = true := by
  cases r with
  | ok m => simp [reqFailed] at hf
  | httpError c =>
      cases r2 <;>
        simp [triggerNormalScan, triggerEmergencyScan, stopMonitoring]
  | netError m =>
      cases r2 <;>
        simp [triggerNormalScan, triggerEmergencyScan, stopMonitoring]

/-- Witness for `session_transition_error_policy` at a concrete network
failure and a concrete successful second request. -/
theorem session_transition_error_policy_witness :
    (triggerNormalScan (.netError "down") initDashboard).1
      = { initDashboard with normalBtnEnabled := true } ∧
    (triggerNormalScan (.netError "down") initDashboard).2.map AlertCall.severity
      = ["danger"] ∧
    (triggerEmergencyScan (.netError "down") initDashboard).1
      = { initDashboard with emergencyBtnEnabled := true } ∧
    (triggerEmergencyScan (.netError "down") initDashboard).2.map AlertCall.severity
      = ["danger"] ∧
    (stopMonitoring (.netError "down") initDashboard).1
      = { initDashboard with stopBtnEnabled := true } ∧
    (stopMonitoring (.netError "down") initDashboard).2.map AlertCall.severity
      = ["danger"] ∧
    (triggerNormalScan (.ok "started") initDashboard).1.normalBtnEnabled = true ∧
    (triggerEmergencyScan (.ok "started") initDashboard).1.emergencyBtnEnabled = true ∧
    (stopMonitoring (.ok "started") initDashboard).1.stopBtnEnabled = true :=
  session_transition_error_policy (.netError "down") (.ok "started") initDashboard rfl

/-- C9: a failed snapshot fetch is caught in `updateHealthData`, reported
as exactly one transient alert, and sets the connection indicator to
disconnected; the interval timer is untouched and the in-flight flag is
cleared, so the next scheduled tick issues a fetch normally. -/
theorem failed_fetch_policy (s : HealthDashboard) (r : FetchResult)
    (hf : fetchFailed r = true) :
    (updateHealthDataFinish r s).2.map AlertCall.severity = ["error"] ∧
    (updateHealthDataFinish r s).1.connected = false ∧
    (updateHealthDataFinish r s).1.timerRunning = s.timerRunning ∧
    (updateHealthDataFinish r s).1.isUpdating = false ∧
    (scheduledTick (updateHealthDataFinish r s).1).2 = true := by
  cases r with
  | ok snap => simp [fetchFailed] at hf
  | httpError c =>
      simp [updateHealthDataFinish, updateConnectionStatus, scheduledTick,
        updateHealthDataStart]
  | netError m =>
      simp [updateHealthDataFinish, updateConnectionStatus, scheduledTick,
        updateHealthDataStart]

/-- Witness for `failed_fetch_policy` at a concrete non-success HTTP
status. -/
theorem failed_fetch_policy_witness :
    (updateHealthDataFinish (.httpError 500) initDashboard).2.map AlertCall.severity
      = ["error"] ∧
    (updateHealthDataFinish (.httpError 500) initDashboard).1.connected = false ∧
    (updateHealthDataFinish (.httpError 500) initDashboard).1.timerRunning
      = initDashboard.timerRunning ∧
    (updateHealthDataFinish (.httpError 500) initDashboard).1.isUpdating = false ∧
    (scheduledTick (updateHealthDataFinish (.httpError 500) initDashboard).1).2 = true :=
  failed_fetch_policy initDashboard (.httpError 500) rfl

/-- C10: for a non-sentinel anomaly result with `is_anomaly` true and
risk level Low, `updateHealthStatus` sets the emergency flag, shows the
anomaly status text, and raises no alert. -/
theorem low_risk_anomaly_no_alert (ar : AnomalyResult) (hd : Option HealthData)
    (s : HealthDashboard) (hns : ar.status ≠ waitingStatus)
    (ha : ar.is_anomaly = true) (hr : ar.risk_level = "Low") :
    (updateHealthStatus ar hd s).1.emergencyMode = true ∧
    (updateHealthStatus ar hd s).1.statusText = "Anomaly Detected (Low Risk)" ∧
    (updateHealthStatus ar hd s).2 = [] := by
  cases hd <;> simp [updateHealthStatus, hns, ha, hr]

/-- Witness for `low_risk_anomaly_no_alert` at a concrete Low-risk
anomaly. -/
theorem low_risk_anomaly_no_alert_witness :
    (updateHealthStatus ⟨"Anomaly", true, "Low"⟩ none initDashboard).1.emergencyMode
      = true ∧
    (updateHealthStatus ⟨"Anomaly", true, "Low"⟩ none initDashboard).1.statusText
      = "Anomaly Detected (Low Risk)" ∧
    (updateHealthStatus ⟨"Anomaly", true, "Low"⟩ none initDashboard).2 = [] :=
  low_risk_anomaly_no_alert ⟨"Anomaly", true, "Low"⟩ none initDashboard
    (by decide) rfl rfl
